import Mathlib

/-!
Verification of the tool invocation pipeline of `pydantic_ai/tools.py`
(`Tool._run`, `Tool._on_error`, `Tool.from_schema`, `ToolDefinition`)
against its natural-language specification.

The Python code is shallowly embedded: exceptions become explicit
`Except`/sum values, mutation of `Tool.current_retry` becomes explicit
state passing (each operation returns the updated `Tool` next to its
outcome), and awaiting a coroutine becomes an ordinary function call.
External collaborators (pydantic-core validators, the user-supplied
callable) are modelled as explicit function-valued fields, so every claim
quantifies over their behaviour.
-/

namespace PydanticTools

/-- JSON-ish values: the payloads flowing through tool arguments and
tool results (`Any` on the Python side). -/
inductive JsonValue where
  | null
  | bool (b : Bool)
  | num (n : Int)
  | str (s : String)
  | arr (xs : List JsonValue)
  | obj (fields : List (String × JsonValue))
deriving Repr

/-- A decoded argument mapping (`dict[str, Any]` on the Python side). -/
abbrev ArgsDict : Type := List (String × JsonValue)

/-- One field-level error descriptor as produced by pydantic's
`ValidationError.errors()`: location path, error kind, message, and the
optional ambient `ctx` / `url` metadata that the `include_context` /
`include_url` flags control. -/
structure ErrorDetail where
  loc : List String
  kind : String
  msg : String
  ctx : Option String
  url : Option String
deriving Repr, DecidableEq

/-- Model of `pydantic.ValidationError`: a list of line errors. -/
structure ValidationError where
  lineErrors : List ErrorDetail
deriving Repr, DecidableEq

/-- Model of `ValidationError.errors(include_url=..., include_context=...)`:
returns the line errors, dropping the `url` / `ctx` metadata when the
corresponding flag is false. -/
def ValidationError.errors (e : ValidationError)
    (include_url include_context : Bool) : List ErrorDetail :=
  e.lineErrors.map fun d =>
    { d with
      url := if include_url then d.url else none
      ctx := if include_context then d.ctx else none }

/-- Model of `pydantic_ai.exceptions.ModelRetry`: the callable's explicit
request for a corrective retry, carrying a message string. -/
structure ModelRetry where
  message : String
deriving Repr, DecidableEq

/-- The `args` field of a `ToolCallPart`: `str | dict[str, Any] | None`. -/
inductive ToolArgs where
  | text (s : String)
  | dict (d : ArgsDict)
  | absent

/-- Model of `messages.ToolCallPart`: the inbound call message. -/
structure ToolCallPart where
  tool_name : String
  args : ToolArgs
  tool_call_id : String

/-- Model of `messages.ToolReturnPart`: the success envelope. -/
structure ToolReturnPart where
  tool_name : String
  content : JsonValue
  tool_call_id : String
deriving Repr

/-- The content of a retry prompt: either the structured list of field
errors (decode failure) or the callable's message string (`ModelRetry`). -/
inductive RetryContent where
  | errorList (errs : List ErrorDetail)
  | message (s : String)
deriving Repr, DecidableEq

/-- Model of `messages.RetryPromptPart`: the recoverable-failure envelope. -/
structure RetryPromptPart where
  tool_name : String
  content : RetryContent
  tool_call_id : String
deriving Repr, DecidableEq

/-- Model of `pydantic_core.SchemaValidator`: the two validation entry
points used by `Tool._run` (`validate_json` for textual arguments,
`validate_python` for structured arguments), each of which may raise
`ValidationError`. -/
structure SchemaValidator where
  validate_json : String → Except ValidationError ArgsDict
  validate_python : ArgsDict → Except ValidationError ArgsDict

/-- Model of `RunContext`: the execution context handed to a
context-taking callable. `deps` stands in for the caller-supplied
dependency data; `retry`, `tool_name` and `tool_call_id` are the fields
`Tool._run` overrides per call. -/
structure RunContext where
  deps : JsonValue
  retry : Nat
  tool_name : String
  tool_call_id : String

/-- The outcome of awaiting `function_schema.call(args_dict, ctx)`:
a successful content value, a raised `ModelRetry`, or any other raised
exception (carried opaquely as a tag so that propagation "unchanged in
kind" is expressible). -/
inductive CallResult where
  | success (content : JsonValue)
  | modelRetry (e : ModelRetry)
  | raises (exc : String)

/-- Model of `_function_schema.FunctionSchema`: the validator produced by
the external schema compiler, whether the callable takes a `RunContext`,
and the dispatch entry point `call` (which internally respects
`takes_ctx`, so it is modelled as receiving the derived context). -/
structure FunctionSchema where
  validator : SchemaValidator
  takes_ctx : Bool
  description : Option String
  json_schema : JsonValue
  call : ArgsDict → RunContext → CallResult

/-- Model of `tools.Tool`: the long-lived entity bound to one callable.
`current_retry` starts at 0; mutation is modelled by returning an updated
copy from each stateful operation. -/
structure Tool where
  function_schema : FunctionSchema
  takes_ctx : Bool
  max_retries : Option Nat
  name : String
  description : Option String
  strict : Option Bool
  current_retry : Nat := 0

/-- Model of `tools.ToolDefinition`: the per-step immutable snapshot. -/
structure ToolDefinition where
  name : String
  parameters_json_schema : JsonValue
  description : Option String
  outer_typed_dict_key : Option String := none
  strict : Option Bool := none

/-- The `exc` argument of `Tool._on_error`:
`ValidationError | ModelRetry`. -/
inductive ToolError where
  | vErr (e : ValidationError)
  | mRetry (e : ModelRetry)
deriving DecidableEq

/-- Rendering of `self.max_retries` inside the f-string
`f'Tool exceeded max retries count of {self.max_retries}'`
(`None` or the integer's decimal form, as Python's str.format). -/
def showMaxRetries : Option Nat → String
  | none => "None"
  | some n => toString n

/-- The outcome of `Tool._run`: the returned message, or one of the two
exception exits (`UnexpectedModelBehavior` raised by `_on_error`, or a
non-`ModelRetry` exception propagating out of the callable). -/
inductive RunOutcome where
  | returnPart (p : ToolReturnPart)
  | retryPrompt (p : RetryPromptPart)
  | unexpectedBehavior (msg : String)
  | raised (exc : String)

/-- Embedding of `Tool._on_error` (tools.py lines 406-421):
increment `current_retry`; if `max_retries` is `None` or the new counter
exceeds it, raise `UnexpectedModelBehavior` with the f-string message;
otherwise build a `RetryPromptPart` whose content is the stripped error
list for a `ValidationError` and the message string for a `ModelRetry`.
Returns the updated tool next to the result (`Except.error` = raise). -/
def Tool._on_error (t : Tool) (exc : ToolError) (call_message : ToolCallPart) :
    Tool × Except String RetryPromptPart :=
  let t' : Tool := { t with current_retry := t.current_retry + 1 }
  if (match t.max_retries with
      | none => true
      | some k => decide (t'.current_retry > k)) then
    (t', Except.error ("Tool exceeded max retries count of " ++ showMaxRetries t.max_retries))
  else
    let content : RetryContent :=
      match exc with
      | .vErr e => .errorList (e.errors false false)
      | .mRetry e => .message e.message
    (t', Except.ok
      { tool_name := call_message.tool_name
        content := content
        tool_call_id := call_message.tool_call_id })

/-- Embedding of the argument-decoding step of `Tool._run`
(tools.py lines 380-384): textual arguments go through `validate_json`
with `message.args or '\x7b\x7d'` (the empty string is falsy, so it is
replaced by the empty-object literal); structured or absent arguments go
through `validate_python` with `message.args or \x7b\x7d` (an absent or
empty mapping becomes the empty dict). -/
def decodeArgs (v : SchemaValidator) : ToolArgs → Except ValidationError ArgsDict
  | .text s => v.validate_json (if s = "" then "\x7b\x7d" else s)
  | .dict d => v.validate_python d
  | .absent => v.validate_python []

/-- Embedding of the context derivation of `Tool._run`
(tools.py lines 388-393): `dataclasses.replace(run_context,
retry=self.current_retry, tool_name=message.tool_name,
tool_call_id=message.tool_call_id)`. -/
def derivedContext (t : Tool) (message : ToolCallPart) (run_context : RunContext) :
    RunContext :=
  { run_context with
    retry := t.current_retry
    tool_name := message.tool_name
    tool_call_id := message.tool_call_id }

/-- Lift the result of `_on_error` into a `RunOutcome`. -/
def onErrorOutcome : Except String RetryPromptPart → RunOutcome
  | .ok p => .retryPrompt p
  | .error msg => .unexpectedBehavior msg

/-- Embedding of `Tool._run` (tools.py lines 376-404):
decode the arguments (a `ValidationError` goes to `_on_error`); derive the
per-call context; await the callable (`ModelRetry` goes to `_on_error`,
any other exception propagates); on success reset `current_retry` to 0 and
build a `ToolReturnPart`. -/
def Tool._run (t : Tool) (message : ToolCallPart) (run_context : RunContext) :
    Tool × RunOutcome :=
  match decodeArgs t.function_schema.validator message.args with
  | .error e =>
    let r := Tool._on_error t (.vErr e) message
    (r.1, onErrorOutcome r.2)
  | .ok args_dict =>
    let ctx := derivedContext t message run_context
    match t.function_schema.call args_dict ctx with
    | .modelRetry e =>
      let r := Tool._on_error t (.mRetry e) message
      (r.1, onErrorOutcome r.2)
    | .raises exc => (t, .raised exc)
    | .success response_content =>
      ({ t with current_retry := 0 },
       .returnPart
         { tool_name := message.tool_name
           content := response_content
           tool_call_id := message.tool_call_id })

/-- Embedding of `Tool.from_schema` (tools.py lines 267-304): builds a
`FunctionSchema` whose validator is `SchemaValidator(core_schema.any_schema())`
— `validate_python` accepts any structured input unchanged, while the JSON
text path of the external any-schema validator is abstracted as the
parameter `anyJson` — with `takes_ctx=False`, then constructs the tool via
`cls(...)` (so `max_retries` keeps its default `None`, `strict` its
default `None`, `current_retry` 0). The callable is invoked with the
decoded keywords only. -/
def Tool.from_schema (function : ArgsDict → CallResult) (name : String)
    (description : Option String) (json_schema : JsonValue)
    (anyJson : String → Except ValidationError ArgsDict) : Tool :=
  let function_schema : FunctionSchema :=
    { validator :=
        { validate_json := anyJson
          validate_python := fun d => .ok d }
      takes_ctx := false
      description := description
      json_schema := json_schema
      call := fun d _ctx => function d }
  { function_schema := function_schema
    takes_ctx := function_schema.takes_ctx
    max_retries := none
    name := name
    description := description
    strict := none
    current_retry := 0 }

/-- An invocation attempt against tool `t` with call message `m` and base
context `rc` fails recoverably: either argument decoding raises a
`ValidationError`, or decoding succeeds and the callable raises
`ModelRetry`. These are exactly the two paths of `Tool._run` that reach
`Tool._on_error`. -/
def attemptFails (t : Tool) (m : ToolCallPart) (rc : RunContext) : Prop :=
  (∃ e, decodeArgs t.function_schema.validator m.args = .error e) ∨
  (∃ d e, decodeArgs t.function_schema.validator m.args = .ok d ∧
    t.function_schema.call d (derivedContext t m rc) = .modelRetry e)

/-- The tool state after `i` invocations of `Tool._run` under the attempt
stream `stim` (the `i`-th attempt uses call message `(stim i).1` and base
context `(stim i).2`). -/
def runSeq (t : Tool) (stim : Nat → ToolCallPart × RunContext) : Nat → Tool
  | 0 => t
  | i + 1 => (Tool._run (runSeq t stim i) (stim i).1 (stim i).2).1

/-- The outcome of the `i`-th invocation (0-indexed) under `stim`. -/
def outcomeAt (t : Tool) (stim : Nat → ToolCallPart × RunContext) (i : Nat) : RunOutcome :=
  (Tool._run (runSeq t stim i) (stim i).1 (stim i).2).2

/-- Modelled from the spec: the caller-supplied default bound applied when
a tool is registered. The registration code is not among the sources here
(only `tools.py` is); per the spec the effective bound is "the Tool's own
bound, or a caller-supplied default if the Tool's bound is unset". -/
def applyDefaultMaxRetries (default_retries : Nat) (t : Tool) : Tool :=
  { t with max_retries := some (t.max_retries.getD default_retries) }

/-- Character-list prefix test (auxiliary to the substring test). -/
def isPrefixOfChars : List Char → List Char → Bool
  | [], _ => true
  | _ :: _, [] => false
  | c :: cs, d :: ds => c == d && isPrefixOfChars cs ds

/-- Test `containsSub needle hay`: does `needle` occur contiguously in `hay`? -/
def containsSub (needle : List Char) : List Char → Bool
  | [] => needle.isEmpty
  | c :: hay => isPrefixOfChars needle (c :: hay) || containsSub needle hay

/-- Test `mentions hay needle`: the string `needle` occurs inside `hay`.
Used to formalise "the error message carries / reports X". -/
def mentions (hay needle : String) : Bool := containsSub needle.data hay.data

/-- A validator that accepts anything: the JSON path decodes to the empty
dict, the python path passes its input through. -/
def anyOkValidator : SchemaValidator :=
  { validate_json := fun _ => .ok []
    validate_python := fun d => .ok d }

/-- Witness model of the validator the schema compiler produces for a
schema requiring no fields: only the empty object decodes, and only the
empty mapping validates. -/
def noFieldsValidator : SchemaValidator :=
  { validate_json := fun s =>
      if s = "\x7b\x7d" then .ok []
      else .error ⟨[⟨[], "json_invalid", "Invalid JSON", none, none⟩]⟩
    validate_python := fun d =>
      match d with
      | [] => .ok []
      | (k, _) :: _ =>
        .error ⟨[⟨[k], "unexpected_keyword_argument", "Unexpected keyword argument", none, none⟩]⟩ }

/-- A function schema whose callable always requests a corrective retry. -/
def failingSchema : FunctionSchema :=
  { validator := anyOkValidator
    takes_ctx := false
    description := none
    json_schema := .obj []
    call := fun _ _ => .modelRetry ⟨"try again"⟩ }

/-- A function schema whose callable always raises a non-`ModelRetry`
exception. -/
def raisingSchema : FunctionSchema :=
  { validator := anyOkValidator
    takes_ctx := false
    description := none
    json_schema := .obj []
    call := fun _ _ => .raises "boom" }

/-- A context-taking callable that returns the retry count it observes. -/
def successSchema : FunctionSchema :=
  { validator := anyOkValidator
    takes_ctx := true
    description := none
    json_schema := .obj []
    call := fun _ ctx => .success (.num ctx.retry) }

/-- A callable that succeeds on the empty argument set and requests a
retry with message "x must be positive" on any other arguments. -/
def flakySchema : FunctionSchema :=
  { validator := anyOkValidator
    takes_ctx := false
    description := none
    json_schema := .obj []
    call := fun d _ =>
      match d with
      | [] => .success .null
      | _ :: _ => .modelRetry ⟨"x must be positive"⟩ }

/-- Build a sample tool around a function schema. -/
def mkTool (fs : FunctionSchema) (mr : Option Nat) (nm : String) (cr : Nat) : Tool :=
  { function_schema := fs
    takes_ctx := fs.takes_ctx
    max_retries := mr
    name := nm
    description := none
    strict := none
    current_retry := cr }

/-- A sample call message with absent arguments. -/
def sampleCall : ToolCallPart :=
  { tool_name := "sample", args := .absent, tool_call_id := "call_1" }

/-- A sample call message with structured (non-empty) arguments. -/
def badCall : ToolCallPart :=
  { tool_name := "sample", args := .dict [("x", .num (-1))], tool_call_id := "call_2" }

/-- A sample base run context. -/
def sampleCtx : RunContext :=
  { deps := .null, retry := 7, tool_name := "base", tool_call_id := "base_id" }

/-- A second base context: same dependencies, different retry count, tool
name and call identifier. -/
def sampleCtx2 : RunContext :=
  { deps := .null, retry := 99, tool_name := "other", tool_call_id := "other_id" }

/-- An always-failing tool with bound `k`. -/
def failTool (k : Nat) : Tool := mkTool failingSchema (some k) "sample" 0

/-- An always-failing tool with no bound of its own. -/
def noneTool : Tool := mkTool failingSchema none "sample" 0

/-- An always-failing tool named `my_tool` whose bound is 0. -/
def exhaustTool : Tool := mkTool failingSchema (some 0) "my_tool" 0

/-- A tool used to exercise the validation-error prompt. -/
def vTool : Tool := mkTool failingSchema (some 3) "sample" 0

/-- A sample `ValidationError` with one line error carrying ambient
context and URL metadata. -/
def sampleVErr : ValidationError :=
  ⟨[{ loc := ["x"], kind := "missing", msg := "Field required"
      ctx := some "ctx_info", url := some "errors.pydantic.dev" }]⟩

/-- The retry prompt expected from `vTool` on `sampleVErr`. -/
def vPrompt : RetryPromptPart :=
  { tool_name := "sample"
    content := .errorList [{ loc := ["x"], kind := "missing", msg := "Field required"
                             ctx := none, url := none }]
    tool_call_id := "call_1" }

/-- The flaky tool, mid-run: one recoverable failure accumulated, bound 2. -/
def flakyTool : Tool := mkTool flakySchema (some 2) "sample" 1

/-- The observing tool, mid-run: counter 4, bound 5. -/
def successTool : Tool := mkTool successSchema (some 5) "sample" 4

/-- The raising tool, mid-run: counter 2, bound 3. -/
def raiseTool : Tool := mkTool raisingSchema (some 3) "sample" 2

/-- The witness callable for `Tool.from_schema`: echoes its arguments. -/
def fsFun : ArgsDict → CallResult := fun d => .success (.obj d)

/-- The witness JSON text path for the any-schema validator. -/
def fsParse : String → Except ValidationError ArgsDict := fun _ => .ok []

/-- Witness structured arguments for the `from_schema` tool. -/
def fsArgs : ArgsDict := [("a", .num 1)]

/-- Witness call message for the `from_schema` tool. -/
def fsCall : ToolCallPart :=
  { tool_name := "fs", args := .dict fsArgs, tool_call_id := "call_fs" }

/-- The witness `from_schema` tool. -/
def fsTool : Tool := Tool.from_schema fsFun "fs" none (.obj []) fsParse

/-- Behaviour of `_on_error` when the incremented counter stays within the bound:
the tool's counter is incremented and the retry prompt is returned. -/
theorem on_error_within (t : Tool) (exc : ToolError) (m : ToolCallPart) (k : Nat)
    (hk : t.max_retries = some k) (hle : t.current_retry + 1 ≤ k) :
    Tool._on_error t exc m =
      ({ t with current_retry := t.current_retry + 1 },
        Except.ok
          { tool_name := m.tool_name
            content :=
              match exc with
              | .vErr e => .errorList (e.errors false false)
              | .mRetry e => .message e.message
            tool_call_id := m.tool_call_id }) := by
  have hgt : ¬ t.current_retry + 1 > k := by omega
  simp [Tool._on_error, hk, hgt]

/-- Behaviour of `_on_error` when the incremented counter exceeds the bound: the
counter is still incremented and `UnexpectedModelBehavior` is raised. -/
theorem on_error_exceeded (t : Tool) (exc : ToolError) (m : ToolCallPart) (k : Nat)
    (hk : t.max_retries = some k) (hgt : t.current_retry + 1 > k) :
    Tool._on_error t exc m =
      ({ t with current_retry := t.current_retry + 1 },
        Except.error ("Tool exceeded max retries count of " ++ toString k)) := by
  simp [Tool._on_error, hk, hgt, showMaxRetries]

/-- Behaviour of `_on_error` when the tool has no bound of its own:
`UnexpectedModelBehavior` is raised at once. -/
theorem on_error_none (t : Tool) (exc : ToolError) (m : ToolCallPart)
    (hk : t.max_retries = none) :
    Tool._on_error t exc m =
      ({ t with current_retry := t.current_retry + 1 },
        Except.error ("Tool exceeded max retries count of " ++ showMaxRetries t.max_retries)) := by
  simp [Tool._on_error, hk]

/-- The first component of `_on_error` is always the tool with its
counter incremented by exactly 1. -/
theorem on_error_fst (t : Tool) (exc : ToolError) (m : ToolCallPart) :
    (Tool._on_error t exc m).1 = { t with current_retry := t.current_retry + 1 } := by
  cases hk : t.max_retries with
  | none => rw [on_error_none t exc m hk]; rw [hk]
  | some k =>
    rcases lt_or_ge k (t.current_retry + 1) with h | h
    · rw [on_error_exceeded t exc m k hk h]; rw [hk]
    · rw [on_error_within t exc m k hk h]; rw [hk]

/-- Behaviour of `Tool._run` on a decode failure defers to `_on_error`. -/
theorem run_decode_error (t : Tool) (m : ToolCallPart) (rc : RunContext) (e : ValidationError)
    (h : decodeArgs t.function_schema.validator m.args = .error e) :
    Tool._run t m rc =
      ((Tool._on_error t (.vErr e) m).1, onErrorOutcome (Tool._on_error t (.vErr e) m).2) := by
  simp [Tool._run, h]

/-- Behaviour of `Tool._run` when the callable raises `ModelRetry` defers to
`_on_error`. -/
theorem run_modelRetry (t : Tool) (m : ToolCallPart) (rc : RunContext) (d : ArgsDict)
    (e : ModelRetry)
    (hdec : decodeArgs t.function_schema.validator m.args = .ok d)
    (hcall : t.function_schema.call d (derivedContext t m rc) = .modelRetry e) :
    Tool._run t m rc =
      ((Tool._on_error t (.mRetry e) m).1, onErrorOutcome (Tool._on_error t (.mRetry e) m).2) := by
  simp [Tool._run, hdec, hcall]

/-- Behaviour of `Tool._run` when the callable raises any other exception: the tool is
untouched and the exception propagates. -/
theorem run_raises (t : Tool) (m : ToolCallPart) (rc : RunContext) (d : ArgsDict) (exc : String)
    (hdec : decodeArgs t.function_schema.validator m.args = .ok d)
    (hcall : t.function_schema.call d (derivedContext t m rc) = .raises exc) :
    Tool._run t m rc = (t, .raised exc) := by
  simp [Tool._run, hdec, hcall]

/-- Behaviour of `Tool._run` on success: the counter resets to 0 and a
`ToolReturnPart` with the call's identifiers is returned. -/
theorem run_success (t : Tool) (m : ToolCallPart) (rc : RunContext) (d : ArgsDict) (c : JsonValue)
    (hdec : decodeArgs t.function_schema.validator m.args = .ok d)
    (hcall : t.function_schema.call d (derivedContext t m rc) = .success c) :
    Tool._run t m rc =
      ({ t with current_retry := 0 },
        .returnPart { tool_name := m.tool_name, content := c, tool_call_id := m.tool_call_id }) := by
  simp [Tool._run, hdec, hcall]

/-- A recoverably-failing attempt goes through `_on_error` with one of
the two recoverable exception kinds. -/
theorem attemptFails_run (t : Tool) (m : ToolCallPart) (rc : RunContext)
    (hf : attemptFails t m rc) :
    ∃ exc, Tool._run t m rc =
      ((Tool._on_error t exc m).1, onErrorOutcome (Tool._on_error t exc m).2) := by
  rcases hf with ⟨e, he⟩ | ⟨d, e, hd, hc⟩
  · exact ⟨.vErr e, run_decode_error t m rc e he⟩
  · exact ⟨.mRetry e, run_modelRetry t m rc d e hd hc⟩

/-- A recoverably-failing attempt increments the counter by exactly 1
and changes nothing else of the tool. -/
theorem run_fail_fst (t : Tool) (m : ToolCallPart) (rc : RunContext)
    (hf : attemptFails t m rc) :
    (Tool._run t m rc).1 = { t with current_retry := t.current_retry + 1 } := by
  obtain ⟨exc, hx⟩ := attemptFails_run t m rc hf
  rw [hx, on_error_fst]

/-- A recoverably-failing attempt within the bound yields a retry prompt
carrying the call's tool name and call identifier. -/
theorem run_fail_retryPrompt (t : Tool) (m : ToolCallPart) (rc : RunContext) (k : Nat)
    (hk : t.max_retries = some k) (hle : t.current_retry + 1 ≤ k)
    (hf : attemptFails t m rc) :
    ∃ p : RetryPromptPart, (Tool._run t m rc).2 = .retryPrompt p ∧
      p.tool_name = m.tool_name ∧ p.tool_call_id = m.tool_call_id := by
  obtain ⟨exc, hx⟩ := attemptFails_run t m rc hf
  rw [hx, on_error_within t exc m k hk hle]
  exact ⟨_, rfl, rfl, rfl⟩

/-- A recoverably-failing attempt past the bound raises
`UnexpectedModelBehavior`. -/
theorem run_fail_exhausted (t : Tool) (m : ToolCallPart) (rc : RunContext) (k : Nat)
    (hk : t.max_retries = some k) (hgt : t.current_retry + 1 > k)
    (hf : attemptFails t m rc) :
    (Tool._run t m rc).2 =
      .unexpectedBehavior ("Tool exceeded max retries count of " ++ toString k) := by
  obtain ⟨exc, hx⟩ := attemptFails_run t m rc hf
  rw [hx, on_error_exceeded t exc m k hk hgt]
  rfl

/-- Along a stream of recoverable failures the counter counts the
attempts and the bound is untouched. -/
theorem runSeq_invariant (t : Tool) (stim : Nat → ToolCallPart × RunContext) (n : Nat)
    (hf : ∀ j, j < n → attemptFails (runSeq t stim j) (stim j).1 (stim j).2) :
    (runSeq t stim n).current_retry = t.current_retry + n ∧
    (runSeq t stim n).max_retries = t.max_retries := by
  induction n with
  | zero => exact ⟨rfl, rfl⟩
  | succ i ih =>
    obtain ⟨h1, h2⟩ := ih (fun j hj => hf j (by omega))
    have hstep := run_fail_fst (runSeq t stim i) (stim i).1 (stim i).2 (hf i (by omega))
    refine ⟨?_, ?_⟩
    · show (Tool._run (runSeq t stim i) (stim i).1 (stim i).2).1.current_retry = _
      rw [hstep]
      show (runSeq t stim i).current_retry + 1 = _
      omega
    · show (Tool._run (runSeq t stim i) (stim i).1 (stim i).2).1.max_retries = _
      rw [hstep]
      exact h2

/-- Every character list is a prefix of itself. -/
theorem isPrefixOfChars_refl : ∀ l : List Char, isPrefixOfChars l l = true
  | [] => rfl
  | c :: cs => by simp [isPrefixOfChars, isPrefixOfChars_refl cs]

/-- A character list occurs in anything that ends with it. -/
theorem containsSub_append (n : List Char) : ∀ p : List Char, containsSub n (p ++ n) = true
  | [] => by
    cases n with
    | nil => rfl
    | cons c cs => simp [containsSub, isPrefixOfChars_refl]
  | c :: p => by simp [containsSub, containsSub_append n p]

/-- A string mentions any suffix appended to it. -/
theorem mentions_append_self (p s : String) : mentions (p ++ s) s = true := by
  cases p with
  | mk pd =>
    cases s with
    | mk sd => exact containsSub_append sd pd

/-- C1 (retry bound invariant): for a tool with `max_retries = k` and
counter 0, along any stream of recoverable failures with no intervening
success, each of the first `k` attempts returns a Retry Prompt and the
`(k+1)`-th raises the fatal retries-exhausted `UnexpectedModelBehavior`
instead. -/
theorem retry_bound_invariant (t : Tool) (k : Nat) (stim : Nat → ToolCallPart × RunContext)
    (hk : t.max_retries = some k) (h0 : t.current_retry = 0)
    (hf : ∀ i, i ≤ k → attemptFails (runSeq t stim i) (stim i).1 (stim i).2) :
    (∀ i, i < k → ∃ p, outcomeAt t stim i = .retryPrompt p) ∧
    outcomeAt t stim k =
      .unexpectedBehavior ("Tool exceeded max retries count of " ++ toString k) := by
  constructor
  · intro i hi
    obtain ⟨hc, hm⟩ := runSeq_invariant t stim i (fun j hj => hf j (by omega))
    obtain ⟨p, hp, -, -⟩ := run_fail_retryPrompt (runSeq t stim i) (stim i).1 (stim i).2 k
      (by rw [hm, hk]) (by rw [hc, h0]; omega) (hf i (by omega))
    exact ⟨p, hp⟩
  · obtain ⟨hc, hm⟩ := runSeq_invariant t stim k (fun j hj => hf j (by omega))
    exact run_fail_exhausted (runSeq t stim k) (stim k).1 (stim k).2 k
      (by rw [hm, hk]) (by rw [hc, h0]; omega) (hf k le_rfl)

/-- Witness for C1: `failTool 1` (bound 1, always-`ModelRetry` callable);
the first failure returns a Retry Prompt, the second raises. -/
theorem retry_bound_invariant_witness :
    (∀ i, i < 1 → ∃ p,
      outcomeAt (failTool 1) (fun _ => (sampleCall, sampleCtx)) i = .retryPrompt p) ∧
    outcomeAt (failTool 1) (fun _ => (sampleCall, sampleCtx)) 1 =
      .unexpectedBehavior ("Tool exceeded max retries count of " ++ toString 1) := by
  refine retry_bound_invariant (failTool 1) 1 (fun _ => (sampleCall, sampleCtx)) rfl rfl ?_
  intro i hi
  interval_cases i <;>
    exact Or.inr ⟨[], ⟨"try again"⟩, rfl, rfl⟩

/-- C2 (reset on success): after `j < k` accumulated recoverable
failures, a successful invocation unconditionally resets the counter
to 0, and a recoverable failure on the following call is counted as the
1st: it yields a Retry Prompt whenever `k ≥ 1`. -/
theorem reset_on_success (t : Tool) (k j : Nat) (m : ToolCallPart) (rc : RunContext)
    (d : ArgsDict) (c : JsonValue)
    (hk : t.max_retries = some k) (hj : t.current_retry = j) (hjk : j < k)
    (hdec : decodeArgs t.function_schema.validator m.args = .ok d)
    (hcall : t.function_schema.call d (derivedContext t m rc) = .success c) :
    (Tool._run t m rc).1.current_retry = 0 ∧
    (1 ≤ k → ∀ m' rc', attemptFails (Tool._run t m rc).1 m' rc' →
      ∃ p, (Tool._run (Tool._run t m rc).1 m' rc').2 = .retryPrompt p) := by
  have hrun := run_success t m rc d c hdec hcall
  constructor
  · rw [hrun]
  · intro hk1 m' rc' hfail
    have hmax : (Tool._run t m rc).1.max_retries = some k := by rw [hrun]; exact hk
    have hcr : (Tool._run t m rc).1.current_retry = 0 := by rw [hrun]
    obtain ⟨p, hp, -, -⟩ := run_fail_retryPrompt (Tool._run t m rc).1 m' rc' k hmax
      (by rw [hcr]; omega) hfail
    exact ⟨p, hp⟩

/-- Witness for C2: `flakyTool` (counter 1, bound 2) succeeds on empty
arguments — counter drops to 0 — and the next failing call yields a
Retry Prompt. -/
theorem reset_on_success_witness :
    (Tool._run flakyTool sampleCall sampleCtx).1.current_retry = 0 ∧
    ∃ p, (Tool._run (Tool._run flakyTool sampleCall sampleCtx).1 badCall sampleCtx).2 =
      .retryPrompt p := by
  obtain ⟨h1, h2⟩ :=
    reset_on_success flakyTool 2 1 sampleCall sampleCtx [] .null rfl rfl (by omega) rfl rfl
  exact ⟨h1, h2 (by omega) badCall sampleCtx
    (Or.inr ⟨[("x", JsonValue.num (-1))], ⟨"x must be positive"⟩, rfl, rfl⟩)⟩

/-- C3 (propagation policy): a Retry Prompt only ever arises from a
decode `ValidationError` or a `ModelRetry` from the callable, and any
other exception raised by the callable propagates out of `_run`
unchanged in kind. -/
theorem recoverable_kinds_only (t : Tool) (m : ToolCallPart) (rc : RunContext) :
    (∀ p, (Tool._run t m rc).2 = .retryPrompt p →
      (∃ e, decodeArgs t.function_schema.validator m.args = .error e) ∨
      (∃ d e, decodeArgs t.function_schema.validator m.args = .ok d ∧
        t.function_schema.call d (derivedContext t m rc) = .modelRetry e)) ∧
    (∀ d exc, decodeArgs t.function_schema.validator m.args = .ok d →
      t.function_schema.call d (derivedContext t m rc) = .raises exc →
      (Tool._run t m rc).2 = .raised exc) := by
  constructor
  · intro p hp
    cases hd : decodeArgs t.function_schema.validator m.args with
    | error e => exact Or.inl ⟨e, rfl⟩
    | ok d =>
      cases hc : t.function_schema.call d (derivedContext t m rc) with
      | success c => rw [run_success t m rc d c hd hc] at hp; simp at hp
      | modelRetry e => exact Or.inr ⟨d, e, rfl, hc⟩
      | raises exc => rw [run_raises t m rc d exc hd hc] at hp; simp at hp
  · intro d exc hd hc
    rw [run_raises t m rc d exc hd hc]

/-- Witness for C3: `raiseTool`'s callable raises a non-`ModelRetry`
exception and it propagates unchanged. -/
theorem recoverable_kinds_only_witness :
    (Tool._run raiseTool sampleCall sampleCtx).2 = .raised "boom" :=
  (recoverable_kinds_only raiseTool sampleCall sampleCtx).2 [] "boom" rfl rfl

/-- C4 (caller-supplied default bound; the registration step is
modelled from the spec as `applyDefaultMaxRetries`): for a tool whose own
`max_retries` is unset, a recoverable failure is judged against the
caller-supplied default `dflt`, so the first recoverable failure yields a
Retry Prompt whenever `dflt ≥ 1` rather than raising a fatal error. -/
theorem default_bound_first_failure (t : Tool) (dflt : Nat) (m : ToolCallPart)
    (rc : RunContext)
    (hnone : t.max_retries = none) (h0 : t.current_retry = 0) (hd : 1 ≤ dflt)
    (hfail : attemptFails (applyDefaultMaxRetries dflt t) m rc) :
    (applyDefaultMaxRetries dflt t).max_retries = some dflt ∧
    ∃ p, (Tool._run (applyDefaultMaxRetries dflt t) m rc).2 = .retryPrompt p := by
  have hmax : (applyDefaultMaxRetries dflt t).max_retries = some dflt := by
    simp [applyDefaultMaxRetries, hnone]
  refine ⟨hmax, ?_⟩
  have hcr : (applyDefaultMaxRetries dflt t).current_retry = 0 := h0
  obtain ⟨p, hp, -, -⟩ := run_fail_retryPrompt (applyDefaultMaxRetries dflt t) m rc dflt hmax
    (by rw [hcr]; omega) hfail
  exact ⟨p, hp⟩

/-- Witness for C4: `noneTool` (no bound of its own) registered with
default 1; its first failure yields a Retry Prompt. -/
theorem default_bound_first_failure_witness :
    (applyDefaultMaxRetries 1 noneTool).max_retries = some 1 ∧
    ∃ p, (Tool._run (applyDefaultMaxRetries 1 noneTool) sampleCall sampleCtx).2 =
      .retryPrompt p :=
  default_bound_first_failure noneTool 1 sampleCall sampleCtx rfl rfl (by omega)
    (Or.inr ⟨[], ⟨"try again"⟩, rfl, rfl⟩)

/-- C5 counterexample: the fatal retries-exhausted error raised for
`exhaustTool` (named `my_tool`, bound 0) is the exact string
`"Tool exceeded max retries count of 0"`, which does not mention the
tool's name — refuting the claim that the error carries both the bound
and the tool name. -/
theorem exhausted_error_omits_name :
    (Tool._on_error exhaustTool (.mRetry ⟨"m"⟩) sampleCall).2 =
      Except.error "Tool exceeded max retries count of 0" ∧
    exhaustTool.name = "my_tool" ∧
    mentions "Tool exceeded max retries count of 0" "my_tool" = false := by
  refine ⟨rfl, rfl, by decide⟩

/-- C5 amended: the fatal retries-exhausted error reports the
configured maximum-retries bound (its message is exactly the fixed prefix
followed by the bound's rendering, which it therefore mentions), but not
the tool's name. -/
theorem exhausted_error_reports_bound (t : Tool) (exc : ToolError) (m : ToolCallPart)
    (msg : String)
    (h : (Tool._on_error t exc m).2 = Except.error msg) :
    msg = "Tool exceeded max retries count of " ++ showMaxRetries t.max_retries ∧
    mentions msg (showMaxRetries t.max_retries) = true := by
  have hmsg : msg = "Tool exceeded max retries count of " ++ showMaxRetries t.max_retries := by
    cases hk : t.max_retries with
    | none =>
      have h2 : (Except.error ("Tool exceeded max retries count of " ++ showMaxRetries t.max_retries) :
            Except String RetryPromptPart) = Except.error msg := by
        rw [on_error_none t exc m hk] at h; exact h
      rw [hk] at h2
      exact ((Except.error.injEq _ _).mp h2).symm
    | some k =>
      rcases lt_or_ge k (t.current_retry + 1) with hgt | hle
      · have h2 : (Except.error ("Tool exceeded max retries count of " ++ toString k) :
              Except String RetryPromptPart) = Except.error msg := by
          rw [on_error_exceeded t exc m k hk hgt] at h; exact h
        have hmk : msg = "Tool exceeded max retries count of " ++ toString k :=
          ((Except.error.injEq _ _).mp h2).symm
        rw [hmk]
        rfl
      · rw [on_error_within t exc m k hk hle] at h
        exact absurd h (by simp)
  refine ⟨hmsg, ?_⟩
  rw [hmsg]
  exact mentions_append_self _ _

/-- Witness for C5 (amended): the error raised for `exhaustTool` is the
fixed prefix followed by the rendering of its bound. -/
theorem exhausted_error_reports_bound_witness :
    ("Tool exceeded max retries count of 0" : String) =
      "Tool exceeded max retries count of " ++ showMaxRetries exhaustTool.max_retries ∧
    mentions "Tool exceeded max retries count of 0"
      (showMaxRetries exhaustTool.max_retries) = true :=
  exhausted_error_reports_bound exhaustTool (.mRetry ⟨"m"⟩) sampleCall
    "Tool exceeded max retries count of 0" rfl

/-- C6 (context derivation): the context the dispatcher passes to the
callable has `retry` equal to the tool's counter before any increment of
this attempt, and the call message's tool name and call identifier,
regardless of the base context's own values of those fields; and after a
successful decode, `_run`'s outcome is exactly the handler of the
callable applied at that derived context. -/
theorem context_derivation (t : Tool) (m : ToolCallPart) (rc rc' : RunContext) :
    (derivedContext t m rc).retry = t.current_retry ∧
    (derivedContext t m rc).tool_name = m.tool_name ∧
    (derivedContext t m rc).tool_call_id = m.tool_call_id ∧
    (rc.deps = rc'.deps → derivedContext t m rc = derivedContext t m rc') ∧
    (∀ d, decodeArgs t.function_schema.validator m.args = .ok d →
      (Tool._run t m rc).2 =
        match t.function_schema.call d (derivedContext t m rc) with
        | .success c =>
          .returnPart { tool_name := m.tool_name, content := c, tool_call_id := m.tool_call_id }
        | .modelRetry e => onErrorOutcome (Tool._on_error t (.mRetry e) m).2
        | .raises exc => .raised exc) := by
  refine ⟨rfl, rfl, rfl, ?_, ?_⟩
  · intro h
    show RunContext.mk rc.deps t.current_retry m.tool_name m.tool_call_id =
      RunContext.mk rc'.deps t.current_retry m.tool_name m.tool_call_id
    rw [h]
  · intro d hd
    cases hc : t.function_schema.call d (derivedContext t m rc) with
    | success c => rw [run_success t m rc d c hd hc]
    | modelRetry e => rw [run_modelRetry t m rc d e hd hc]
    | raises exc => rw [run_raises t m rc d exc hd hc]

/-- Witness for C6: `successTool` (counter 4) with two base contexts that
differ in `retry`, `tool_name` and `tool_call_id` but share `deps`. -/
theorem context_derivation_witness :
    (derivedContext successTool sampleCall sampleCtx).retry = successTool.current_retry ∧
    (derivedContext successTool sampleCall sampleCtx).tool_name = sampleCall.tool_name ∧
    (derivedContext successTool sampleCall sampleCtx).tool_call_id = sampleCall.tool_call_id ∧
    derivedContext successTool sampleCall sampleCtx =
      derivedContext successTool sampleCall sampleCtx2 ∧
    (Tool._run successTool sampleCall sampleCtx).2 =
      match successTool.function_schema.call []
          (derivedContext successTool sampleCall sampleCtx) with
      | .success c =>
        .returnPart
          { tool_name := sampleCall.tool_name, content := c
            tool_call_id := sampleCall.tool_call_id }
      | .modelRetry e => onErrorOutcome (Tool._on_error successTool (.mRetry e) sampleCall).2
      | .raises exc => .raised exc := by
  obtain ⟨h1, h2, h3, h4, h5⟩ :=
    context_derivation successTool sampleCall sampleCtx sampleCtx2
  exact ⟨h1, h2, h3, h4 rfl, h5 [] rfl⟩

/-- C7 (decode paths): textual arguments go through the schema's
textual-decoding path with the empty string decoding as the empty object
first; structured arguments are validated directly; absent arguments
default to the empty mapping; and when the validator accepts the empty
object (a schema requiring no fields), empty-string arguments decode
successfully to the empty parameter set. -/
theorem decode_paths (v : SchemaValidator) :
    decodeArgs v (.text "") = v.validate_json "\x7b\x7d" ∧
    (∀ s, s ≠ "" → decodeArgs v (.text s) = v.validate_json s) ∧
    (∀ d, decodeArgs v (.dict d) = v.validate_python d) ∧
    decodeArgs v .absent = v.validate_python [] ∧
    (v.validate_json "\x7b\x7d" = .ok [] → decodeArgs v (.text "") = .ok []) := by
  refine ⟨rfl, ?_, fun d => rfl, rfl, ?_⟩
  · intro s hs
    simp [decodeArgs, hs]
  · intro h
    simpa [decodeArgs] using h

/-- Witness for C7: the no-fields validator decodes empty-string
arguments to the empty parameter set, and each decode path forwards to
the matching validator entry point. -/
theorem decode_paths_witness :
    decodeArgs noFieldsValidator (.text "") = noFieldsValidator.validate_json "\x7b\x7d" ∧
    decodeArgs noFieldsValidator (.text "bad") = noFieldsValidator.validate_json "bad" ∧
    decodeArgs noFieldsValidator (.dict []) = noFieldsValidator.validate_python [] ∧
    decodeArgs noFieldsValidator .absent = noFieldsValidator.validate_python [] ∧
    decodeArgs noFieldsValidator (.text "") = .ok [] := by
  obtain ⟨h1, h2, h3, h4, h5⟩ := decode_paths noFieldsValidator
  exact ⟨h1, h2 "bad" (by decide), h3 [], h4, h5 rfl⟩

/-- C8 (retry prompt content): a retry prompt returned by `_on_error`
carries the call message's tool name and call identifier; for a
validation error its content is the structured field-error list with the
ambient `url` and `ctx` metadata stripped, and for a tool-requested retry
it is exactly the callable's message string. -/
theorem retry_prompt_content (t : Tool) (exc : ToolError) (m : ToolCallPart)
    (p : RetryPromptPart)
    (h : (Tool._on_error t exc m).2 = Except.ok p) :
    p.tool_name = m.tool_name ∧ p.tool_call_id = m.tool_call_id ∧
    (∀ e, exc = .vErr e → p.content = .errorList (e.errors false false) ∧
      ∀ d ∈ e.errors false false, d.url = none ∧ d.ctx = none) ∧
    (∀ e, exc = .mRetry e → p.content = .message e.message) := by
  cases hk : t.max_retries with
  | none =>
    rw [on_error_none t exc m hk] at h
    exact absurd h (by simp)
  | some k =>
    rcases lt_or_ge k (t.current_retry + 1) with hgt | hle
    · rw [on_error_exceeded t exc m k hk hgt] at h
      exact absurd h (by simp)
    · cases exc with
      | vErr e =>
        rw [on_error_within t (.vErr e) m k hk hle] at h
        have h2 : (Except.ok
            { tool_name := m.tool_name
              content := RetryContent.errorList (e.errors false false)
              tool_call_id := m.tool_call_id } : Except String RetryPromptPart) =
            Except.ok p := h
        have hp : p =
            { tool_name := m.tool_name
              content := RetryContent.errorList (e.errors false false)
              tool_call_id := m.tool_call_id } := ((Except.ok.injEq _ _).mp h2).symm
        subst hp
        refine ⟨rfl, rfl, ?_, ?_⟩
        · intro e' he'
          injection he' with hee
          subst hee
          refine ⟨rfl, ?_⟩
          intro d hd
          unfold ValidationError.errors at hd
          simp only [List.mem_map] at hd
          obtain ⟨a, -, ha⟩ := hd
          subst ha
          exact ⟨rfl, rfl⟩
        · intro e' he'
          simp at he'
      | mRetry e =>
        rw [on_error_within t (.mRetry e) m k hk hle] at h
        have h2 : (Except.ok
            { tool_name := m.tool_name
              content := RetryContent.message e.message
              tool_call_id := m.tool_call_id } : Except String RetryPromptPart) =
            Except.ok p := h
        have hp : p =
            { tool_name := m.tool_name
              content := RetryContent.message e.message
              tool_call_id := m.tool_call_id } := ((Except.ok.injEq _ _).mp h2).symm
        subst hp
        refine ⟨rfl, rfl, ?_, ?_⟩
        · intro e' he'
          simp at he'
        · intro e' he'
          injection he' with hee
          subst hee
          rfl

/-- Witness for C8: `vTool` on `sampleVErr` yields exactly `vPrompt`,
whose error list has the `url`/`ctx` metadata stripped. -/
theorem retry_prompt_content_witness :
    vPrompt.tool_name = sampleCall.tool_name ∧
    vPrompt.tool_call_id = sampleCall.tool_call_id ∧
    (∀ e, ToolError.vErr sampleVErr = .vErr e →
      vPrompt.content = .errorList (e.errors false false) ∧
      ∀ d ∈ e.errors false false, d.url = none ∧ d.ctx = none) ∧
    (∀ e, ToolError.vErr sampleVErr = .mRetry e → vPrompt.content = .message e.message) :=
  retry_prompt_content vTool (.vErr sampleVErr) sampleCall vPrompt rfl

/-- C9 (frame effect of a non-retry exception): when the callable
raises anything other than `ModelRetry`, the attempt leaves the tool —
in particular `current_retry` — unchanged, and the exception propagates
out of `_run` unchanged in kind. -/
theorem counter_unchanged_on_raise (t : Tool) (m : ToolCallPart) (rc : RunContext)
    (d : ArgsDict) (exc : String)
    (hdec : decodeArgs t.function_schema.validator m.args = .ok d)
    (hcall : t.function_schema.call d (derivedContext t m rc) = .raises exc) :
    (Tool._run t m rc).1 = t ∧
    (Tool._run t m rc).1.current_retry = t.current_retry ∧
    (Tool._run t m rc).2 = .raised exc := by
  rw [run_raises t m rc d exc hdec hcall]
  exact ⟨rfl, rfl, rfl⟩

/-- Witness for C9: `raiseTool` (counter 2) raises `"boom"`; the tool is
unchanged and its counter still reads 2. -/
theorem counter_unchanged_on_raise_witness :
    (Tool._run raiseTool sampleCall sampleCtx).1 = raiseTool ∧
    (Tool._run raiseTool sampleCall sampleCtx).1.current_retry = raiseTool.current_retry ∧
    (Tool._run raiseTool sampleCall sampleCtx).2 = .raised "boom" :=
  counter_unchanged_on_raise raiseTool sampleCall sampleCtx [] "boom" rfl rfl

/-- C10 (tool built via `from_schema` performs no validation): a tool built via
`from_schema` has `takes_ctx = false` and no bound of its own; its
validator accepts any structured arguments unchanged, which are then
passed to the function as-is; and — even once registered with any
caller-supplied default bound — its invocation on structured arguments
can never produce an argument-validation retry prompt: any retry prompt
carries a `ModelRetry` message string, never a field-error list. -/
theorem from_schema_no_validation (f : ArgsDict → CallResult) (nm : String)
    (desc : Option String) (js : JsonValue)
    (anyJson : String → Except ValidationError ArgsDict) (dflt : Nat)
    (d : ArgsDict) (m : ToolCallPart) (rc : RunContext)
    (hargs : m.args = .dict d) :
    (Tool.from_schema f nm desc js anyJson).takes_ctx = false ∧
    (Tool.from_schema f nm desc js anyJson).max_retries = none ∧
    decodeArgs (Tool.from_schema f nm desc js anyJson).function_schema.validator m.args =
      .ok d ∧
    (∀ c, f d = .success c →
      (Tool._run (applyDefaultMaxRetries dflt (Tool.from_schema f nm desc js anyJson)) m rc).2 =
        .returnPart
          { tool_name := m.tool_name, content := c, tool_call_id := m.tool_call_id }) ∧
    (∀ p, (Tool._run (applyDefaultMaxRetries dflt (Tool.from_schema f nm desc js anyJson))
        m rc).2 = .retryPrompt p →
      ∃ s, p.content = .message s) := by
  set T := applyDefaultMaxRetries dflt (Tool.from_schema f nm desc js anyJson) with hT
  have hdec : decodeArgs T.function_schema.validator m.args = .ok d := by
    rw [hargs]; rfl
  refine ⟨rfl, rfl, by rw [hargs]; rfl, ?_, ?_⟩
  · intro c hc
    exact congrArg Prod.snd (run_success T m rc d c hdec hc) ▸ rfl
  · intro p hp
    cases hfd : f d with
    | success c =>
      rw [run_success T m rc d c hdec hfd] at hp
      simp at hp
    | raises exc =>
      rw [run_raises T m rc d exc hdec hfd] at hp
      simp at hp
    | modelRetry e =>
      rw [run_modelRetry T m rc d e hdec hfd] at hp
      have hmax : T.max_retries = some dflt := rfl
      rcases lt_or_ge dflt (T.current_retry + 1) with hgt | hle
      · rw [on_error_exceeded T (.mRetry e) m dflt hmax hgt] at hp
        exact absurd hp (by simp [onErrorOutcome])
      · rw [on_error_within T (.mRetry e) m dflt hmax hle] at hp
        refine ⟨e.message, ?_⟩
        have hp2 : RunOutcome.retryPrompt
            { tool_name := m.tool_name, content := RetryContent.message e.message
              tool_call_id := m.tool_call_id } = .retryPrompt p := hp
        have := ((RunOutcome.retryPrompt.injEq _ _).mp hp2).symm
        rw [this]

/-- Witness for C10: the `from_schema` witness tool, registered with
default bound 1, on the structured arguments `fsArgs`. -/
theorem from_schema_no_validation_witness :
    fsTool.takes_ctx = false ∧
    fsTool.max_retries = none ∧
    decodeArgs fsTool.function_schema.validator fsCall.args = .ok fsArgs ∧
    (∀ c, fsFun fsArgs = .success c →
      (Tool._run (applyDefaultMaxRetries 1 fsTool) fsCall sampleCtx).2 =
        .returnPart
          { tool_name := fsCall.tool_name, content := c
            tool_call_id := fsCall.tool_call_id }) ∧
    (∀ p, (Tool._run (applyDefaultMaxRetries 1 fsTool) fsCall sampleCtx).2 = .retryPrompt p →
      ∃ s, p.content = .message s) :=
  from_schema_no_validation fsFun "fs" none (.obj []) fsParse 1 fsArgs fsCall sampleCtx rfl

end PydanticTools
